import Mathlib

/-!
Verification of the interception control-flow engine of `mirrord`
(`mirrord/layer/src/detour.rs`): the `Detour` outcome type and its
combinators, the thread-local reentrancy guard (`DETOUR_BYPASS`,
`DetourGuard`), the write-once original-call slot (`HookFn`, wrapping
`OnceLock`), and the `OnceLock`/`Option` extension traits.

Rust machine types are embedded as follows: `u16`/`usize` as `Nat`,
`i32`/`RawFd` as `Int`, `CString`/`PathBuf` as `String`, `Result<T, E>`
as `Except E T`, `Option<T>` as `Option T`, `convert::Infallible` as
`Empty`.  The thread-local `RefCell<bool>` cell is embedded as an
explicit `Bool` state threaded through the operations: within a single
thread no `RefCell` borrow is ever live across the borrow sites in this
module, so every `try_borrow`/`try_borrow_mut` in the source succeeds.
macOS-only (`cfg(target_os = "macos")`) variants and methods are
omitted, matching the non-macOS build of the file.
-/

/-- Modelled from the spec: the caller-visible error taxonomy (spec §7)
lives in `mirrord/layer/src/error.rs`, outside the core under
verification; `detour.rs` treats `HookError` values opaquely, so it is
embedded as an opaque wrapper around an integer error code (the spec
requires only that a `Failed` error carries an OS-compatible code). -/
inductive HookError : Type where
  | mk (code : Int)
deriving DecidableEq, Repr

/-- Soft-errors that can be recovered from by calling the raw FFI
function (`enum Bypass`, detour.rs lines 117-222; macOS-gated variants
omitted). -/
inductive Bypass : Type where
  | Port (port : Nat)
  | «Type» (ty : Int)
  | Domain (domain : Int)
  | UnixSocket (addr : Option String)
  | LocalFdNotFound (fd : Int)
  | LocalDirStreamNotFound (dir : Nat)
  | AddressConversion
  | InvalidState (fd : Int)
  | CStrConversion
  | IgnoredFile (path : String)
  | RelativePath (path : String)
  | ReadOnly (path : String)
  | EmptyBuffer
  | EmptyOption
  | NullNode
  | IgnoreLocalhost (port : Nat)
  | BindWhenTargetless
  | DisabledOutgoing
  | DisabledIncoming
  | LocalHostname
  | LocalDns
  | NotImplemented
  | OpenLocal
deriving DecidableEq, Repr

/-- `ControlFlow`-like enum used by hooks (`enum Detour<S>`, detour.rs
lines 244-253). -/
inductive Detour (S : Type) : Type where
  | Success (s : S)
  | Bypass (b : Bypass)
  | Error (e : HookError)
deriving DecidableEq, Repr

/-- `std::ops::ControlFlow`, as used by the `Try` implementation. -/
inductive ControlFlow (B C : Type) : Type where
  | Break (b : B)
  | Continue (c : C)
deriving DecidableEq, Repr

/-- Alias for the `Bypass` enum: inside the `Detour` namespace the bare
name `Bypass` resolves to the constructor `Detour.Bypass`, so signatures
there use this alias for the type. -/
abbrev BypassReason : Type := Bypass

namespace Detour

/-- `<Detour<S> as Try>::from_output` (detour.rs lines 260-262). -/
def from_output {S : Type} (output : S) : Detour S :=
  Detour.Success output

/-- `<Detour<S> as Try>::branch` (detour.rs lines 264-270); the residual
type `Detour<convert::Infallible>` is `Detour Empty`. -/
def branch {S : Type} : Detour S → ControlFlow (Detour Empty) S
  | Detour.Success s => ControlFlow.Continue s
  | Detour.Bypass b => ControlFlow.Break (Detour.Bypass b)
  | Detour.Error e => ControlFlow.Break (Detour.Error e)

/-- `FromResidual<Detour<convert::Infallible>> for Detour<S>`
(detour.rs lines 273-280).  The source match has no `Success` arm
because `Infallible` is uninhabited; the `Success` arm here eliminates
`Empty` accordingly. -/
def from_residual {S : Type} : Detour Empty → Detour S
  | Detour.Success s => s.elim
  | Detour.Bypass b => Detour.Bypass b
  | Detour.Error e => Detour.Error e

/-- `FromResidual<Result<convert::Infallible, E>> for Detour<S>` where
`E: Into<HookError>` (detour.rs lines 282-289); the `Into` conversion is
passed explicitly as `toHook`.  The source irrefutably matches `Err(e)`;
the `ok` arm eliminates `Empty`. -/
def from_residual_result {S E : Type} (toHook : E → HookError) :
    Except E Empty → Detour S
  | Except.ok a => a.elim
  | Except.error e => Detour.Error (toHook e)

/-- `FromResidual<Result<convert::Infallible, Bypass>> for Detour<S>`
(detour.rs lines 291-295). -/
def from_residual_bypass {S : Type} : Except BypassReason Empty → Detour S
  | Except.ok a => a.elim
  | Except.error b => Detour.Bypass b

/-- `FromResidual<Option<convert::Infallible>> for Detour<S>`
(detour.rs lines 297-301): the residual is ignored and
`Bypass(EmptyOption)` is produced. -/
def from_residual_option {S : Type} : Option Empty → Detour S
  | _ => Detour.Bypass Bypass.EmptyOption

/-- `Detour::and_then` (detour.rs lines 312-318). -/
def and_then {S U : Type} (self : Detour S) (op : S → Detour U) : Detour U :=
  match self with
  | Detour.Success s => op s
  | Detour.Bypass b => Detour.Bypass b
  | Detour.Error e => Detour.Error e

/-- `Detour::map` (detour.rs lines 324-330). -/
def map {S U : Type} (self : Detour S) (op : S → U) : Detour U :=
  match self with
  | Detour.Success s => Detour.Success (op s)
  | Detour.Bypass b => Detour.Bypass b
  | Detour.Error e => Detour.Error e

/-- `Detour::or_else` (detour.rs lines 347-353). -/
def or_else {S : Type} (self : Detour S) (op : HookError → Detour S) : Detour S :=
  match self with
  | Detour.Success s => Detour.Success s
  | Detour.Bypass b => Detour.Bypass b
  | Detour.Error e => op e

/-- `Detour::or_bypass` (detour.rs lines 356-362). -/
def or_bypass {S : Type} (self : Detour S) (op : BypassReason → Detour S) : Detour S :=
  match self with
  | Detour.Success s => Detour.Success s
  | Detour.Bypass b => op b
  | Detour.Error e => Detour.Error e

/-- `Detour::unwrap_or_bypass_with` (detour.rs lines 374-380); the
`S: From<HookError>` bound is passed explicitly as `fromErr`. -/
def unwrap_or_bypass_with {S : Type} (fromErr : HookError → S)
    (self : Detour S) (op : BypassReason → S) : S :=
  match self with
  | Detour.Success s => s
  | Detour.Bypass b => op b
  | Detour.Error e => fromErr e

/-- `Detour::unwrap_or_bypass` (detour.rs lines 387-393); the
`S: From<HookError>` bound is passed explicitly as `fromErr`. -/
def unwrap_or_bypass {S : Type} (fromErr : HookError → S)
    (self : Detour S) (value : S) : S :=
  match self with
  | Detour.Success s => s
  | Detour.Bypass _ => value
  | Detour.Error e => fromErr e

end Detour

/-- Net effect of the `?` operator applied to a `Result<T, E>`,
`E: Into<HookError>`, inside a `Detour`-returning function: `Try::branch`
on the `Result` (`Ok` continues with the value, `Err` breaks with the
residual) followed by `Detour::from_residual` on the break path
(detour.rs lines 282-289), with continuation `k`. -/
def tryResult {T E S : Type} (toHook : E → HookError) (r : Except E T)
    (k : T → Detour S) : Detour S :=
  match r with
  | Except.ok v => k v
  | Except.error e => Detour.from_residual_result toHook (Except.error e)

/-- Net effect of the `?` operator applied to a `Result<T, Bypass>`
inside a `Detour`-returning function (detour.rs lines 291-295), with
continuation `k`. -/
def tryBypassResult {T S : Type} (r : Except Bypass T)
    (k : T → Detour S) : Detour S :=
  match r with
  | Except.ok v => k v
  | Except.error b => Detour.from_residual_bypass (Except.error b)

/-- Net effect of the `?` operator applied to an `Option<T>` inside a
`Detour`-returning function (detour.rs lines 297-301), with
continuation `k`. -/
def tryOption {T S : Type} (o : Option T) (k : T → Detour S) : Detour S :=
  match o with
  | some v => k v
  | none => Detour.from_residual_option (none : Option Empty)

/-- Full conversion of a `Result<T, E>` into a `Detour<T>` by `?`
followed by wrapping the output: `Ok(v)` ends as `from_output v`,
`Err(e)` takes the residual path. -/
def detourOfResult {T E : Type} (toHook : E → HookError)
    (r : Except E T) : Detour T :=
  tryResult toHook r Detour.from_output

/-- Full conversion of a `Result<T, Bypass>` into a `Detour<T>` by `?`
followed by wrapping the output. -/
def detourOfBypassResult {T : Type} (r : Except Bypass T) : Detour T :=
  tryBypassResult r Detour.from_output

/-- Full conversion of an `Option<T>` into a `Detour<T>` by `?`
followed by wrapping the output. -/
def detourOfOption {T : Type} (o : Option T) : Detour T :=
  tryOption o Detour.from_output

/-- Per-thread state of the thread-local `DETOUR_BYPASS: RefCell<bool>`
cell (detour.rs lines 21-43), embedded as an explicit `Bool` (`true` =
bypass active).  Each thread has its own independent cell initialized to
`false`. -/
abbrev DetourBypassFlag : Type := Bool

/-- `detour_bypass_off` (detour.rs lines 48-54): sets the cell to
`false`.  The `try_borrow_mut` succeeds because no other borrow of the
thread-local cell is live when it runs, so the write is unconditional. -/
def detour_bypass_off (_flag : DetourBypassFlag) : DetourBypassFlag :=
  false

/-- `struct DetourGuard` (detour.rs line 64): a zero-sized scoped guard
over the thread-local flag. -/
structure DetourGuard : Type where

/-- `DetourGuard::new` (detour.rs lines 66-82), as a transition on the
calling thread's flag: if the flag is already `true`, no guard is
produced and the flag is untouched; otherwise the flag is set to `true`
and a guard is produced.  Both `try_borrow` and `try_borrow_mut`
succeed, since no other borrow of the cell is live at those points. -/
def DetourGuard.new (flag : DetourBypassFlag) :
    Option DetourGuard × DetourBypassFlag :=
  if flag then
    (none, flag)
  else
    (some ⟨⟩, true)

/-- `impl Drop for DetourGuard` (detour.rs lines 84-88): dropping a
guard — which Rust runs on every exit path from the guard's scope,
normal or unwinding — calls `detour_bypass_off`. -/
def DetourGuard.drop (flag : DetourBypassFlag) : DetourBypassFlag :=
  detour_bypass_off flag

/-- State of a `HookFn<T>` / the `OnceLock<T>` it wraps (detour.rs
line 94): `none` when never successfully set, `some v` once `v` has been
stored. -/
abbrev HookFnState (T : Type) : Type := Option T

/-- `impl Deref for HookFn<T>` (detour.rs lines 96-102):
`self.0.get().unwrap()`.  The `unwrap` panic on an unset slot is
embedded as `Except.error ()`. -/
def HookFn.deref {T : Type} (slot : HookFnState T) : Except Unit T :=
  match slot with
  | some v => Except.ok v
  | none => Except.error ()

/-- `HookFn::set` (detour.rs lines 104-108), i.e. `OnceLock::set`:
stores `value` and returns `Ok(())` if the slot was empty, otherwise
leaves the slot unchanged and returns `Err(value)`. -/
def HookFn.set {T : Type} (slot : HookFnState T) (value : T) :
    Except T Unit × HookFnState T :=
  match slot with
  | none => (Except.ok (), some value)
  | some _ => (Except.error value, slot)

/-- `HookFn::default_const` (detour.rs lines 111-113): a fresh, unset
slot. -/
def HookFn.default_const {T : Type} : HookFnState T :=
  none

/-- `<Option<T> as OptionExt>::bypass` (detour.rs lines 430-435). -/
def Option.bypass {T : Type} (self : Option T) (value : Bypass) : Detour T :=
  match self with
  | some v => Detour.Success v
  | none => Detour.Bypass value

/-- `<Option<Detour<T>> as OptionDetourExt>::transpose` (detour.rs
lines 440-447). -/
def Option.transposeDetour {T : Type} (self : Option (Detour T)) :
    Detour (Option T) :=
  match self with
  | some (Detour.Success s) => Detour.Success (some s)
  | some (Detour.Error e) => Detour.Error e
  | some (Detour.Bypass b) => Detour.Bypass b
  | none => Detour.Success none

/-- `<OnceLock<T> as OnceLockExt>::get_or_detour_init` (detour.rs
lines 459-470), with the `OnceLock` state threaded explicitly; returns
the `Detour` result and the slot's state afterwards.  The `f()?` is the
`Try::branch` of `Detour` followed by `Detour::from_residual` on the
break path; on the continue path `get_or_init` runs on a slot known to
be empty here (sequential execution), so it stores the value. -/
def getOrDetourInit {T : Type} (slot : Option T) (f : Unit → Detour T) :
    Detour T × Option T :=
  match slot with
  | some value => (Detour.Success value, slot)
  | none =>
    match (f ()).branch with
    | ControlFlow.Continue value => (Detour.Success value, some value)
    | ControlFlow.Break residual => (Detour.from_residual residual, none)

/-- Effect on a `HookFn` slot of a sequence of `set` attempts, in
order. -/
def hookFnSetAll {T : Type} (slot : HookFnState T) (xs : List T) :
    HookFnState T :=
  xs.foldl (fun s x => (HookFn.set s x).2) slot

theorem hookFnSetAll_populated {T : Type} (v : T) (xs : List T) :
    hookFnSetAll (some v) xs = some v := by
  induction xs with
  | nil => rfl
  | cons x xs ih => exact ih

/-- C1: `and_then` short-circuits: a `Bypass` or `Error` receiver is
returned unchanged for every continuation (so the continuation is never
consulted), only a `Success` receiver evaluates the continuation, and in
a three-step chain whose second step returns `Bypass(r)` the third
step's function is never consulted and the end-to-end outcome is
`Bypass(r)`. -/
theorem and_then_short_circuit {S U V : Type} (b : Bypass) (e : HookError)
    (s : S) (f : S → Detour U) (a : S) (step2 : S → Detour U)
    (step3 : U → Detour V) (r : Bypass)
    (h2 : step2 a = Detour.Bypass r) :
    (Detour.Bypass b : Detour S).and_then f = Detour.Bypass b ∧
    (Detour.Error e : Detour S).and_then f = Detour.Error e ∧
    (Detour.Success s).and_then f = f s ∧
    ((Detour.Success a).and_then step2).and_then step3 = Detour.Bypass r := by
  refine ⟨rfl, rfl, rfl, ?_⟩
  simp [Detour.and_then, h2]

theorem and_then_short_circuit_witness :
    ((fun (_ : Nat) => (Detour.Bypass Bypass.EmptyOption : Detour Nat)) 0
      = Detour.Bypass Bypass.EmptyOption) ∧
    ((Detour.Bypass Bypass.NotImplemented : Detour Nat).and_then
        Detour.Success = Detour.Bypass Bypass.NotImplemented ∧
      (Detour.Error (HookError.mk 5) : Detour Nat).and_then Detour.Success
        = Detour.Error (HookError.mk 5) ∧
      (Detour.Success 3).and_then Detour.Success = Detour.Success 3 ∧
      ((Detour.Success 0).and_then
          (fun (_ : Nat) =>
            (Detour.Bypass Bypass.EmptyOption : Detour Nat))).and_then
          (fun n => Detour.Success n) = Detour.Bypass Bypass.EmptyOption) :=
  ⟨rfl, and_then_short_circuit Bypass.NotImplemented (HookError.mk 5) 3
    Detour.Success 0 (fun _ => Detour.Bypass Bypass.EmptyOption)
    (fun n => Detour.Success n) Bypass.EmptyOption rfl⟩

/-- C2: dropping a `DetourGuard` unconditionally resets the calling
thread's bypass flag to `false`, whatever its prior state, so a
subsequent `DetourGuard::new` on that thread succeeds. -/
theorem guard_drop_resets_flag (b : DetourBypassFlag) :
    DetourGuard.drop b = false ∧
    (DetourGuard.new (DetourGuard.drop b)).1.isSome = true :=
  ⟨rfl, rfl⟩

/-- C3: at most one reentrancy guard is outstanding per thread:
`DetourGuard::new` with the flag already `true` returns no guard and
leaves the flag unchanged; with the flag `false` it sets the flag and
returns a guard; a second acquisition while the first guard is alive
therefore returns no guard. -/
theorem guard_acquire_at_most_one :
    DetourGuard.new true = (none, true) ∧
    DetourGuard.new false = (some ⟨⟩, true) ∧
    (DetourGuard.new (DetourGuard.new false).2).1 = none :=
  ⟨rfl, rfl, rfl⟩

/-- C4: `get_or_detour_init` on a populated slot returns `Success` of
the stored value without consulting the factory and leaves the slot
unchanged (so a second sequential call behaves identically); on an empty
slot a factory `Bypass`/`Error` outcome is propagated exactly and the
slot stays empty, while a factory `Success(w)` stores `w` and returns
`Success(w)`. -/
theorem get_or_detour_init_spec {T : Type} (v w : T)
    (f g fb fe fs : Unit → Detour T) (b : Bypass) (e : HookError)
    (hb : fb () = Detour.Bypass b) (he : fe () = Detour.Error e)
    (hs : fs () = Detour.Success w) :
    getOrDetourInit (some v) f = (Detour.Success v, some v) ∧
    getOrDetourInit ((getOrDetourInit (some v) f).2) g
      = (Detour.Success v, some v) ∧
    getOrDetourInit none fb = (Detour.Bypass b, none) ∧
    getOrDetourInit none fe = (Detour.Error e, none) ∧
    getOrDetourInit none fs = (Detour.Success w, some w) := by
  refine ⟨rfl, rfl, ?_, ?_, ?_⟩ <;>
    simp [getOrDetourInit, hb, he, hs, Detour.branch, Detour.from_residual]

theorem get_or_detour_init_spec_witness :
    ((fun (_ : Unit) => (Detour.Bypass Bypass.EmptyBuffer : Detour Nat)) ()
        = Detour.Bypass Bypass.EmptyBuffer ∧
      (fun (_ : Unit) => (Detour.Error (HookError.mk 2) : Detour Nat)) ()
        = Detour.Error (HookError.mk 2) ∧
      (fun (_ : Unit) => (Detour.Success 9 : Detour Nat)) ()
        = Detour.Success 9) ∧
    (getOrDetourInit (some 7)
        (fun _ => (Detour.Success 1 : Detour Nat))
        = (Detour.Success 7, some 7) ∧
      getOrDetourInit
          ((getOrDetourInit (some 7)
            (fun _ => (Detour.Success 1 : Detour Nat))).2)
          (fun _ => (Detour.Success 1 : Detour Nat))
        = (Detour.Success 7, some 7) ∧
      getOrDetourInit none
          (fun _ => (Detour.Bypass Bypass.EmptyBuffer : Detour Nat))
        = (Detour.Bypass Bypass.EmptyBuffer, none) ∧
      getOrDetourInit none
          (fun _ => (Detour.Error (HookError.mk 2) : Detour Nat))
        = (Detour.Error (HookError.mk 2), none) ∧
      getOrDetourInit none (fun _ => (Detour.Success 9 : Detour Nat))
        = (Detour.Success 9, some 9)) :=
  ⟨⟨rfl, rfl, rfl⟩,
    get_or_detour_init_spec 7 9 (fun _ => Detour.Success 1)
      (fun _ => Detour.Success 1) (fun _ => Detour.Bypass Bypass.EmptyBuffer)
      (fun _ => Detour.Error (HookError.mk 2)) (fun _ => Detour.Success 9)
      Bypass.EmptyBuffer (HookError.mk 2) rfl rfl rfl⟩

/-- C5: the conversion laws into `Detour` hold for every value: a
`Result<T, E>` with `E: Into<HookError>` converts as
`Ok(v) → Success(v)` and `Err(e) → Error(e.into())`; a plain `Option`
converts as `Some(v) → Success(v)` and `None → Bypass(EmptyOption)`; a
`Result<T, Bypass>` converts as `Ok(v) → Success(v)` and
`Err(reason) → Bypass(reason)`. -/
theorem detour_conversion_laws {T E : Type} (toHook : E → HookError)
    (v : T) (e : E) (b : Bypass) :
    detourOfResult toHook (Except.ok v) = Detour.Success v ∧
    detourOfResult toHook (Except.error e : Except E T)
      = Detour.Error (toHook e) ∧
    detourOfOption (some v) = Detour.Success v ∧
    detourOfOption (none : Option T) = Detour.Bypass Bypass.EmptyOption ∧
    detourOfBypassResult (Except.ok v) = Detour.Success v ∧
    detourOfBypassResult (Except.error b : Except Bypass T)
      = Detour.Bypass b :=
  ⟨rfl, rfl, rfl, rfl, rfl, rfl⟩

/-- C6: the terminal unwrap combinators satisfy, for every outcome:
`Success(v)` returns `v`; `Bypass(b)` returns the caller-supplied
recovery value (`unwrap_or_bypass`) or the recovery function applied to
`b` (`unwrap_or_bypass_with`); `Error(e)` returns `e` converted by the
`From<HookError>` conversion on the return type. -/
theorem unwrap_combinators_spec {S : Type} (fromErr : HookError → S)
    (v d : S) (f : Bypass → S) (b : Bypass) (e : HookError) :
    Detour.unwrap_or_bypass fromErr (Detour.Success v) d = v ∧
    Detour.unwrap_or_bypass fromErr (Detour.Bypass b) d = d ∧
    Detour.unwrap_or_bypass fromErr (Detour.Error e) d = fromErr e ∧
    Detour.unwrap_or_bypass_with fromErr (Detour.Success v) f = v ∧
    Detour.unwrap_or_bypass_with fromErr (Detour.Bypass b) f = f b ∧
    Detour.unwrap_or_bypass_with fromErr (Detour.Error e) f = fromErr e :=
  ⟨rfl, rfl, rfl, rfl, rfl, rfl⟩

/-- C7: `and_then` is associative: for every outcome `m` and
continuations `f`, `g`, chaining equals manual nesting. -/
theorem and_then_assoc {S U V : Type} (m : Detour S) (f : S → Detour U)
    (g : U → Detour V) :
    (m.and_then f).and_then g = m.and_then (fun x => (f x).and_then g) := by
  cases m <;> rfl

/-- C8: the recovery combinators are selective: `or_else` runs its
function only on `Error` (returning `f e`) and passes `Success` and
`Bypass` through unchanged for every function; `or_bypass` runs its
function only on `Bypass` (returning `g b`) and passes `Success` and
`Error` through unchanged for every function. -/
theorem recovery_combinators_selective {S : Type} (s : S) (b : Bypass)
    (e : HookError) (f : HookError → Detour S) (g : Bypass → Detour S) :
    Detour.or_else (Detour.Success s) f = Detour.Success s ∧
    Detour.or_else (Detour.Bypass b) f = Detour.Bypass b ∧
    Detour.or_else (Detour.Error e) f = f e ∧
    Detour.or_bypass (Detour.Success s) g = Detour.Success s ∧
    Detour.or_bypass (Detour.Error e) g = Detour.Error e ∧
    Detour.or_bypass (Detour.Bypass b) g = g b :=
  ⟨rfl, rfl, rfl, rfl, rfl, rfl⟩

/-- C9: dereferencing a `HookFn` slot that was never successfully set
panics (embedded as `Except.error ()`); setting an empty slot succeeds
and stores the value; after a successful `set(v)`, every later
dereference returns `v` regardless of any further sequence of `set`
attempts, and every later `set(w)` fails returning `w` and leaves the
stored value unchanged. -/
theorem hookFn_write_once {T : Type} (v w : T) (xs : List T) :
    HookFn.deref (HookFn.default_const (T := T)) = Except.error () ∧
    HookFn.set (HookFn.default_const (T := T)) v = (Except.ok (), some v) ∧
    HookFn.deref (hookFnSetAll (some v) xs) = Except.ok v ∧
    HookFn.set (hookFnSetAll (some v) xs) w = (Except.error w, some v) := by
  refine ⟨rfl, rfl, ?_, ?_⟩ <;> rw [hookFnSetAll_populated] <;> rfl

/-- C10: transposing an `Option<Detour<T>>` into a `Detour<Option<T>>`
maps `None` to `Success(None)` — not to `Bypass(EmptyOption)` as the
plain-`Option` conversion does — and maps `Some(Success(s))` to
`Success(Some(s))`, `Some(Bypass(b))` to `Bypass(b)`, and
`Some(Error(e))` to `Error(e)`, for every input. -/
theorem transpose_spec {T : Type} (s : T) (b : Bypass) (e : HookError) :
    Option.transposeDetour (none : Option (Detour T)) = Detour.Success none ∧
    Option.transposeDetour (none : Option (Detour T))
      ≠ Detour.Bypass Bypass.EmptyOption ∧
    Option.transposeDetour (some (Detour.Success s))
      = Detour.Success (some s) ∧
    Option.transposeDetour (some (Detour.Bypass b) : Option (Detour T))
      = Detour.Bypass b ∧
    Option.transposeDetour (some (Detour.Error e) : Option (Detour T))
      = Detour.Error e := by
  refine ⟨rfl, ?_, rfl, rfl, rfl⟩
  simp [Option.transposeDetour]
